import Mathlib

/-!
Verification of the ID3 tag engine (`src/tag.rs`).

The Rust source in scope is `src/tag.rs`: the `ID3Tag` container (frames,
offsets, the `modified_offset` watermark), the semantic getters/setters,
and the `AudioTag` load/save/skip_metadata/is_candidate implementations.
The frame codec (`frame.rs`), picture type enumeration (`picture.rs`) and
synchsafe codec (`util.rs`) are not part of the provided source; the few
pieces of them this development needs are modelled from the spec and marked
as such in their doc comments.

Machine integers (`u8`, `u32`, `u64`) are modelled as `Nat`; none of the
verified operations performs arithmetic that can overflow on the inputs the
claims are about.  File I/O is modelled by a byte-list file with an explicit
read position; fallible operations return `Option`.
-/

set_option autoImplicit false

namespace id3

/-- Text encodings of the ID3 text codec.  Modelled from the spec: the
`encoding` module of `frame.rs` is not part of the provided source; the spec
lists exactly these four encodings. -/
inductive Encoding where
  | Latin1
  | UTF16
  | UTF16BE
  | UTF8
deriving DecidableEq, Repr

/-- Modelled from the spec: picture types are "a fixed enumeration of 21
values (byte-valued 0x00-0x14), with integer identity preserved"; the
enumeration itself lives in `picture.rs` which is not part of the provided
source.  We keep the byte value. -/
abbrev PictureType : Type := Nat

namespace picture_type

/-- Modelled from the spec: the `Other` picture type (byte value 0x00). -/
def Other : PictureType := (0 : Nat)

/-- Modelled from the spec: the `CoverFront` picture type (byte value 0x03). -/
def CoverFront : PictureType := (3 : Nat)

end picture_type

/-- An attached picture, as stored in an `APIC` frame (`picture.rs`,
modelled from the spec: mime type, picture type, description and image
data). -/
structure Picture where
  mime_type : String
  picture_type : PictureType
  description : String
  data : List Nat
deriving DecidableEq, Repr

/-- The typed payload of a frame.  Modelled from the spec's payload variants
(the concrete enum lives in `frame.rs`); `tag.rs` pattern-matches on these
constructors. -/
inductive FrameContents where
  | TextContent (text : String)
  | ExtendedTextContent (kv : String × String)
  | LinkContent (url : String)
  | ExtendedLinkContent (kv : String × String)
  | LyricsContent (text : String)
  | CommentContent (kv : String × String)
  | PictureContent (picture : Picture)
  | RawContent (bytes : List Nat)
deriving DecidableEq, Repr

export FrameContents (TextContent ExtendedTextContent LinkContent
  ExtendedLinkContent LyricsContent CommentContent PictureContent RawContent)

/-- Per-frame flags.  Modelled from the spec (the struct lives in
`frame.rs`); `tag.rs` reads `tag_alter_preservation` and
`file_alter_preservation` in `write`. -/
structure FrameFlags where
  tag_alter_preservation : Bool
  file_alter_preservation : Bool
  read_only : Bool
  compression : Bool
  encryption : Bool
  grouping_identity : Bool
  unsynchronization : Bool
  data_length_indicator : Bool
deriving DecidableEq, Repr

/-- Modelled from the spec: fresh frame flags are all false. -/
def FrameFlags.new : FrameFlags :=
  ⟨false, false, false, false, false, false, false, false⟩

/-- A metadata frame.  Fields used by `tag.rs`: the four-character
identifier `id`, the opaque identity `uuid`, the text `encoding`, the typed
`contents`, the on-disk `offset` of the frame header (0 if never persisted)
and the per-frame `flags`.  The `uuid` is modelled from the spec as an
opaque natural number ("random 128-bit value or monotonically increasing
counter - external callers must treat it as opaque"); the tag carries the
counter used by `generate_uuid`. -/
structure Frame where
  id : String
  uuid : Nat
  encoding : Encoding
  contents : FrameContents
  offset : Nat
  flags : FrameFlags
deriving DecidableEq, Repr

/-- Modelled from the spec: `Frame::new(id)` (in `frame.rs`) makes a fresh
frame with the given identifier, offset 0 and default flags; `tag.rs` always
overwrites `encoding` and `contents` after calling it, and `add_frame`
regenerates the uuid. -/
def Frame.new (id : String) : Frame :=
  { id := id, uuid := 0, encoding := Encoding.UTF16,
    contents := RawContent [], offset := 0, flags := FrameFlags.new }

/-- Flags used in the ID3 header (`TagFlags` in `tag.rs`). -/
structure TagFlags where
  unsynchronization : Bool
  extended_header : Bool
  experimental : Bool
  footer : Bool
  compression : Bool
deriving DecidableEq, Repr

/-- `TagFlags::new`: all flags false. -/
def TagFlags.new : TagFlags :=
  { unsynchronization := false, extended_header := false,
    experimental := false, footer := false, compression := false }

/-- An ID3 tag (`ID3Tag` in `tag.rs`).  `version` is the (major, revision)
pair, `size` the declared on-disk payload size, `offset` the file offset
just past the last frame, `modified_offset` the watermark of the first
modified frame.  `next_uuid` is the state of the modelled uuid generator
(see `Frame`). -/
structure ID3Tag where
  path : Option String
  version : Nat × Nat
  size : Nat
  offset : Nat
  modified_offset : Nat
  flags : TagFlags
  frames : List Frame
  rewrite : Bool
  next_uuid : Nat
deriving DecidableEq, Repr

namespace ID3Tag

/-- `ID3Tag::new()`: a new ID3v2.4 tag with no frames. -/
def new : ID3Tag :=
  { path := none, version := (4, 0), size := 0, offset := 0,
    modified_offset := 0, flags := TagFlags.new, frames := [],
    rewrite := false, next_uuid := 0 }

/-- `ID3Tag::with_version(version)`: as in the source, the version byte is
stored without any validation (the doc comment of the Rust function claims
a panic for versions other than 3 and 4, but the body performs no check). -/
def with_version (version : Nat) : ID3Tag :=
  { new with version := (version, 0) }

/-- `ID3Tag::default_encoding()`: UTF8 for major version >= 4, else UTF16. -/
def default_encoding (t : ID3Tag) : Encoding :=
  if t.version.1 >= 4 then Encoding.UTF8 else Encoding.UTF16

/-- `ID3Tag::get_frame_by_id`: the first frame with the given identifier. -/
def get_frame_by_id (t : ID3Tag) (id : String) : Option Frame :=
  t.frames.find? (fun f => f.id == id)

/-- `ID3Tag::get_frames_by_id`: all frames with the given identifier, in
order. -/
def get_frames_by_id (t : ID3Tag) (id : String) : List Frame :=
  t.frames.filter (fun f => f.id == id)

/-- `ID3Tag::add_frame`: assign a fresh uuid, set the offset to 0, append. -/
def add_frame (t : ID3Tag) (frame : Frame) : ID3Tag :=
  { t with frames := t.frames ++ [{ frame with uuid := t.next_uuid, offset := 0 }],
           next_uuid := t.next_uuid + 1 }

end ID3Tag

/-- The `set_modified_offset` closure shared by the removal functions in
`tag.rs`: fold a candidate offset `o` into the running local watermark `m`
(`if (*m == 0 || o < *m) && o != 0 { *m = o; }`). -/
def set_modified_offset (m o : Nat) : Nat :=
  if (m = 0 ∨ o < m) ∧ o ≠ 0 then o else m

/-- The `Vec::retain` loop shared by the removal functions of `tag.rs`:
walk the frames in order; a frame with `remP f = true` is removed, and when
additionally `updP f = true` its offset is folded into the local watermark
with `set_modified_offset` (in `remove_picture_type` an unparseable `APIC`
frame is removed without updating the watermark, hence the two
predicates). -/
def retainWith (remP updP : Frame → Bool) : List Frame → Nat → (List Frame × Nat)
  | [], m => ([], m)
  | f :: fs, m =>
    if remP f then
      retainWith remP updP fs (if updP f then set_modified_offset m f.offset else m)
    else
      let r := retainWith remP updP fs m
      (f :: r.1, r.2)

/-- Common tail of the removal functions of `tag.rs`: run the retain loop
with a local watermark starting at 0, then
`if modified_offset != 0 && modified_offset < self.modified_offset
 { self.modified_offset = modified_offset; }`. -/
def retainUpdate (t : ID3Tag) (remP updP : Frame → Bool) : ID3Tag :=
  let r := retainWith remP updP t.frames 0
  { t with frames := r.1,
           modified_offset :=
             if r.2 ≠ 0 ∧ r.2 < t.modified_offset then r.2 else t.modified_offset }

namespace ID3Tag

/-- Helper mirroring the search loop of `remove_frame_by_uuid`: remove the
first frame with the given uuid and report its offset. -/
def removeFirstByUuid (uuid : Nat) : List Frame → (List Frame × Option Nat)
  | [] => ([], none)
  | f :: fs =>
    if f.uuid = uuid then (fs, some f.offset)
    else
      let r := removeFirstByUuid uuid fs
      (f :: r.1, r.2)

/-- `ID3Tag::remove_frame_by_uuid`: remove the first frame with the given
uuid; if its offset is nonzero and below the watermark, lower the
watermark to it. -/
def remove_frame_by_uuid (t : ID3Tag) (uuid : Nat) : ID3Tag :=
  let r := removeFirstByUuid uuid t.frames
  match r.2 with
  | none => t
  | some o =>
    { t with frames := r.1,
             modified_offset :=
               if o ≠ 0 ∧ o < t.modified_offset then o else t.modified_offset }

/-- `ID3Tag::remove_frames_by_id`: remove every frame with the given
identifier, folding the removed nonzero offsets into the watermark. -/
def remove_frames_by_id (t : ID3Tag) (id : String) : ID3Tag :=
  retainUpdate t (fun f => f.id == id) (fun _ => true)

end ID3Tag

/-- The match predicate of `remove_txxx`: a `TXXX` frame matches when its
key and value match the (wildcard) arguments; a `TXXX` frame whose contents
are not `ExtendedTextContent` matches unconditionally ("remove frames that
we can't parse"); non-`TXXX` frames never match. -/
def txxxMatches (key value : Option String) (f : Frame) : Bool :=
  if f.id == "TXXX" then
    match f.contents with
    | ExtendedTextContent (k, v) =>
      (match key with
       | some s => s == k
       | none => true) &&
      (match value with
       | some s => s == v
       | none => true)
    | _ => true
  else false

/-- The match predicate of `remove_comment`, identical to `txxxMatches` but
for `COMM` frames with `CommentContent`. -/
def commMatches (key value : Option String) (f : Frame) : Bool :=
  if f.id == "COMM" then
    match f.contents with
    | CommentContent (k, v) =>
      (match key with
       | some s => s == k
       | none => true) &&
      (match value with
       | some s => s == v
       | none => true)
    | _ => true
  else false

/-- Removal predicate of `remove_picture_type`: an `APIC` frame is removed
when its picture type matches, and also when its contents are not
`PictureContent` (the `_ => return false` arm). -/
def apicRemoves (pt : PictureType) (f : Frame) : Bool :=
  if f.id == "APIC" then
    match f.contents with
    | PictureContent pic => pic.picture_type == pt
    | _ => true
  else false

/-- Watermark-update predicate of `remove_picture_type`: only a parseable
`APIC` frame whose picture type matches reaches the `set_modified_offset`
call; an unparseable one is removed via `return false` without it. -/
def apicUpdates (pt : PictureType) (f : Frame) : Bool :=
  match f.contents with
  | PictureContent pic => pic.picture_type == pt
  | _ => false

namespace ID3Tag

/-- `ID3Tag::remove_txxx(key, value)`. -/
def remove_txxx (t : ID3Tag) (key value : Option String) : ID3Tag :=
  retainUpdate t (txxxMatches key value) (fun _ => true)

/-- `ID3Tag::remove_comment(key, value)`. -/
def remove_comment (t : ID3Tag) (key value : Option String) : ID3Tag :=
  retainUpdate t (commMatches key value) (fun _ => true)

/-- `ID3Tag::remove_picture_type(picture_type)`. -/
def remove_picture_type (t : ID3Tag) (pt : PictureType) : ID3Tag :=
  retainUpdate t (apicRemoves pt) (apicUpdates pt)

/-- `ID3Tag::add_text_frame_enc`: remove the frames with this identifier,
then insert a fresh `TextContent` frame. -/
def add_text_frame_enc (t : ID3Tag) (id text : String) (encoding : Encoding) : ID3Tag :=
  let t := t.remove_frames_by_id id
  t.add_frame { Frame.new id with encoding := encoding, contents := TextContent text }

/-- `ID3Tag::add_text_frame`: `add_text_frame_enc` with the default
encoding. -/
def add_text_frame (t : ID3Tag) (id text : String) : ID3Tag :=
  t.add_text_frame_enc id text t.default_encoding

/-- Collector loop of `ID3Tag::txxx()`: the `ExtendedTextContent` pairs,
in order. -/
def txxxPairsOf (l : List Frame) : List (String × String) :=
  l.filterMap (fun f =>
    match f.contents with
    | ExtendedTextContent kv => some kv
    | _ => none)

/-- `ID3Tag::txxx()`: the key/value pairs of the parseable `TXXX` frames. -/
def txxx (t : ID3Tag) : List (String × String) :=
  txxxPairsOf (t.get_frames_by_id "TXXX")

/-- `ID3Tag::add_txxx_enc`: remove prior `TXXX` frames with the same key,
then insert. -/
def add_txxx_enc (t : ID3Tag) (key value : String) (encoding : Encoding) : ID3Tag :=
  let t := t.remove_txxx (some key) none
  let frame := { Frame.new "TXXX" with
    encoding := encoding
    contents := ExtendedTextContent (key, value) }
  t.add_frame frame

/-- `ID3Tag::add_txxx`: `add_txxx_enc` with the default encoding. -/
def add_txxx (t : ID3Tag) (key value : String) : ID3Tag :=
  t.add_txxx_enc key value t.default_encoding

/-- Collector loop of `ID3Tag::pictures()`: the `PictureContent` payloads,
in order. -/
def picturesOf (l : List Frame) : List Picture :=
  l.filterMap (fun f =>
    match f.contents with
    | PictureContent p => some p
    | _ => none)

/-- `ID3Tag::pictures()`: the parseable pictures of the `APIC` frames. -/
def pictures (t : ID3Tag) : List Picture :=
  picturesOf (t.get_frames_by_id "APIC")

/-- `ID3Tag::add_picture_enc`: remove the pictures with the same type, then
insert the new `APIC` frame. -/
def add_picture_enc (t : ID3Tag) (mime_type : String) (pt : PictureType)
    (description : String) (data : List Nat) (encoding : Encoding) : ID3Tag :=
  let t := t.remove_picture_type pt
  let frame := { Frame.new "APIC" with
    encoding := encoding
    contents := PictureContent
      { mime_type := mime_type, picture_type := pt,
        description := description, data := data } }
  t.add_frame frame

/-- `ID3Tag::add_picture`: `add_picture_enc` with an empty description and
Latin-1 encoding. -/
def add_picture (t : ID3Tag) (mime_type : String) (pt : PictureType)
    (data : List Nat) : ID3Tag :=
  t.add_picture_enc mime_type pt "" data Encoding.Latin1

/-- Collector loop of `ID3Tag::comments()`: the `CommentContent` pairs, in
order. -/
def commentPairsOf (l : List Frame) : List (String × String) :=
  l.filterMap (fun f =>
    match f.contents with
    | CommentContent kv => some kv
    | _ => none)

/-- `ID3Tag::comments()`. -/
def comments (t : ID3Tag) : List (String × String) :=
  commentPairsOf (t.get_frames_by_id "COMM")

/-- `ID3Tag::add_comment_enc`: remove prior `COMM` frames with the same
description, then insert. -/
def add_comment_enc (t : ID3Tag) (description text : String) (encoding : Encoding) : ID3Tag :=
  let t := t.remove_comment (some description) none
  let frame := { Frame.new "COMM" with
    encoding := encoding
    contents := CommentContent (description, text) }
  t.add_frame frame

/-- `ID3Tag::add_comment`. -/
def add_comment (t : ID3Tag) (description text : String) : ID3Tag :=
  t.add_comment_enc description text t.default_encoding

/-- `ID3Tag::text_for_frame_id`. -/
def text_for_frame_id (t : ID3Tag) (id : String) : Option String :=
  match t.get_frame_by_id id with
  | some frame =>
    match frame.contents with
    | TextContent text => some text
    | _ => none
  | none => none

/-- `ID3Tag::set_artist_enc`: a plain `TPE1` text frame. -/
def set_artist_enc (t : ID3Tag) (artist : String) (encoding : Encoding) : ID3Tag :=
  t.add_text_frame_enc "TPE1" artist encoding

/-- `ID3Tag::set_album_artist_enc`: removes `TSOP`, then sets `TPE2`. -/
def set_album_artist_enc (t : ID3Tag) (album_artist : String) (encoding : Encoding) : ID3Tag :=
  let t := t.remove_frames_by_id "TSOP"
  t.add_text_frame_enc "TPE2" album_artist encoding

/-- `ID3Tag::set_album_enc`: a plain `TALB` text frame (no `TSOP` removal
in this variant). -/
def set_album_enc (t : ID3Tag) (album : String) (encoding : Encoding) : ID3Tag :=
  t.add_text_frame_enc "TALB" album encoding

/-- `ID3Tag::set_title_enc`: removes `TSOT`, then sets `TIT2`. -/
def set_title_enc (t : ID3Tag) (title : String) (encoding : Encoding) : ID3Tag :=
  let t := t.remove_frames_by_id "TSOT"
  t.add_text_frame_enc "TIT2" title encoding

/-- `ID3Tag::set_genre_enc`. -/
def set_genre_enc (t : ID3Tag) (genre : String) (encoding : Encoding) : ID3Tag :=
  t.add_text_frame_enc "TCON" genre encoding

end ID3Tag

/-- `from_str::<u32>` as used by `track_pair` and `year`: a nonempty string
of decimal digits that fits in the target type parses to its value;
anything else is `None`. -/
def from_str_u32 (s : String) : Option Nat :=
  if s.length ≠ 0 ∧ s.toList.all Char.isDigit then
    let v := s.toList.foldl (fun a c => a * 10 + (c.toNat - 48)) 0
    if v < 2 ^ 32 then some v else none
  else none

/-- Piece-collection loop of pre-1.0 `str::splitn(count, sep)`: with
`count` splits remaining, take the piece before the first separator and
recurse on the remainder; with no separator left (or no splits remaining)
the rest is one final piece. -/
def splitnCore (sep : Char) : Nat → List Char → List (List Char)
  | 0, l => [l]
  | n + 1, l =>
    let pre := l.takeWhile (fun c => c ≠ sep)
    if pre.length = l.length then [l]
    else pre :: splitnCore sep n (l.drop (pre.length + 1))

/-- Pre-1.0 `str::splitn(count, sep)`, as this source uses it: split at the
separator at most `count` TIMES, yielding up to `count + 1` pieces, the
remainder after the last split kept whole (`"7/x/y".splitn(2, '/')` is
`["7", "x", "y"]`; the "at most count pieces" reading is Rust 1.0 and
postdates this source). -/
def splitn (n : Nat) (sep : Char) (s : String) : List String :=
  (splitnCore sep n s.toList).map String.mk

namespace ID3Tag

/-- `ID3Tag::year()`: parse the first `TYER` text payload. -/
def year (t : ID3Tag) : Option Nat :=
  match t.get_frame_by_id "TYER" with
  | some frame =>
    match frame.contents with
    | TextContent text => from_str_u32 text
    | _ => none
  | none => none

/-- `ID3Tag::set_year`: a Latin-1 `TYER` text frame. -/
def set_year (t : ID3Tag) (year : Nat) : ID3Tag :=
  t.add_text_frame_enc "TYER" (toString year) Encoding.Latin1

/-- `ID3Tag::set_year_enc`. -/
def set_year_enc (t : ID3Tag) (year : Nat) (encoding : Encoding) : ID3Tag :=
  t.add_text_frame_enc "TYER" (toString year) encoding

/-- `ID3Tag::track_pair()`: collect `text.splitn(2, '/')` (one to three
pieces); if there are exactly two pieces the second must parse as the total
or the whole result is `None` (the `return None`), otherwise the total is
`None`; then the first piece must parse as the track.  `split.getD i ""`
models the `split[i]` indexing (the list is never empty, and `split[1]` is
only read behind the length-2 test, so the default is never taken). -/
def track_pair (t : ID3Tag) : Option (Nat × Option Nat) :=
  match t.get_frame_by_id "TRCK" with
  | some frame =>
    match frame.contents with
    | TextContent text =>
      let split := splitn 2 '/' text
      if split.length = 2 then
        match from_str_u32 (split.getD 1 "") with
        | some total_tracks =>
          match from_str_u32 (split.getD 0 "") with
          | some track => some (track, some total_tracks)
          | none => none
        | none => none
      else
        match from_str_u32 (split.getD 0 "") with
        | some track => some (track, none)
        | none => none
    | _ => none
  | none => none

/-- `ID3Tag::set_track_enc`: keep the existing total-tracks component when
present. -/
def set_track_enc (t : ID3Tag) (track : Nat) (encoding : Encoding) : ID3Tag :=
  let text := match (t.track_pair).bind (fun p => p.2) with
    | some n => toString track ++ "/" ++ toString n
    | none => toString track
  t.add_text_frame_enc "TRCK" text encoding

/-- `ID3Tag::set_total_tracks_enc`. -/
def set_total_tracks_enc (t : ID3Tag) (total_tracks : Nat) (encoding : Encoding) : ID3Tag :=
  let text := match t.track_pair with
    | some (track, _) => toString track ++ "/" ++ toString total_tracks
    | none => "1/" ++ toString total_tracks
  t.add_text_frame_enc "TRCK" text encoding

/-- `ID3Tag::set_lyrics_enc`: removes `USLT`, then inserts a fresh
`LyricsContent` frame. -/
def set_lyrics_enc (t : ID3Tag) (text : String) (encoding : Encoding) : ID3Tag :=
  let t := t.remove_frames_by_id "USLT"
  let frame := { Frame.new "USLT" with
    encoding := encoding
    contents := LyricsContent text }
  t.add_frame frame

/-- `AudioTag::artist` for `ID3Tag`. -/
def artist (t : ID3Tag) : Option String :=
  t.text_for_frame_id "TPE1"

/-- `AudioTag::set_artist` for `ID3Tag`. -/
def set_artist (t : ID3Tag) (artist : String) : ID3Tag :=
  t.add_text_frame "TPE1" artist

/-- `AudioTag::remove_artist` for `ID3Tag`. -/
def remove_artist (t : ID3Tag) : ID3Tag :=
  t.remove_frames_by_id "TPE1"

/-- `AudioTag::album_artist` for `ID3Tag`. -/
def album_artist (t : ID3Tag) : Option String :=
  t.text_for_frame_id "TPE2"

/-- `AudioTag::set_album_artist` for `ID3Tag`: note that, unlike
`set_album_artist_enc`, this forwards to `add_text_frame` and therefore
does not remove `TSOP`. -/
def set_album_artist (t : ID3Tag) (album_artist : String) : ID3Tag :=
  t.add_text_frame "TPE2" album_artist

/-- `AudioTag::remove_album_artist` for `ID3Tag`. -/
def remove_album_artist (t : ID3Tag) : ID3Tag :=
  t.remove_frames_by_id "TPE2"

/-- `AudioTag::album` for `ID3Tag`. -/
def album (t : ID3Tag) : Option String :=
  t.text_for_frame_id "TALB"

/-- `AudioTag::set_album` for `ID3Tag`: removes `TSOP`, then sets `TALB`. -/
def set_album (t : ID3Tag) (album : String) : ID3Tag :=
  let t := t.remove_frames_by_id "TSOP"
  t.add_text_frame "TALB" album

/-- `AudioTag::remove_album` for `ID3Tag`. -/
def remove_album (t : ID3Tag) : ID3Tag :=
  let t := t.remove_frames_by_id "TSOP"
  t.remove_frames_by_id "TALB"

/-- `AudioTag::title` for `ID3Tag`. -/
def title (t : ID3Tag) : Option String :=
  t.text_for_frame_id "TIT2"

/-- `AudioTag::set_title` for `ID3Tag` (forwards to `add_text_frame`, so no
`TSOT` removal in this variant). -/
def set_title (t : ID3Tag) (title : String) : ID3Tag :=
  t.add_text_frame "TIT2" title

/-- `AudioTag::remove_title` for `ID3Tag`. -/
def remove_title (t : ID3Tag) : ID3Tag :=
  t.remove_frames_by_id "TIT2"

/-- `AudioTag::genre` for `ID3Tag`. -/
def genre (t : ID3Tag) : Option String :=
  t.text_for_frame_id "TCON"

/-- `AudioTag::set_genre` for `ID3Tag`. -/
def set_genre (t : ID3Tag) (genre : String) : ID3Tag :=
  t.add_text_frame "TCON" genre

/-- `AudioTag::remove_genre` for `ID3Tag`. -/
def remove_genre (t : ID3Tag) : ID3Tag :=
  t.remove_frames_by_id "TCON"

/-- `AudioTag::track` for `ID3Tag`. -/
def track (t : ID3Tag) : Option Nat :=
  (t.track_pair).bind (fun p => some p.1)

/-- `AudioTag::set_track` for `ID3Tag`. -/
def set_track (t : ID3Tag) (track : Nat) : ID3Tag :=
  t.set_track_enc track Encoding.Latin1

/-- `AudioTag::remove_track` for `ID3Tag`. -/
def remove_track (t : ID3Tag) : ID3Tag :=
  t.remove_frames_by_id "TRCK"

/-- `AudioTag::total_tracks` for `ID3Tag`. -/
def total_tracks (t : ID3Tag) : Option Nat :=
  (t.track_pair).bind (fun p => p.2)

/-- `AudioTag::set_total_tracks` for `ID3Tag`. -/
def set_total_tracks (t : ID3Tag) (total_tracks : Nat) : ID3Tag :=
  t.set_total_tracks_enc total_tracks Encoding.Latin1

/-- `AudioTag::remove_total_tracks` for `ID3Tag` (as in the source, it
writes a `TALB` frame with the bare track number). -/
def remove_total_tracks (t : ID3Tag) : ID3Tag :=
  match t.track_pair with
  | some (track, _) => t.add_text_frame "TALB" (toString track)
  | none => t

/-- `AudioTag::lyrics` for `ID3Tag`. -/
def lyrics (t : ID3Tag) : Option String :=
  match t.get_frame_by_id "USLT" with
  | some frame =>
    match frame.contents with
    | LyricsContent text => some text
    | _ => none
  | none => none

/-- `AudioTag::set_lyrics` for `ID3Tag`. -/
def set_lyrics (t : ID3Tag) (text : String) : ID3Tag :=
  t.set_lyrics_enc text t.default_encoding

/-- `AudioTag::remove_lyrics` for `ID3Tag`. -/
def remove_lyrics (t : ID3Tag) : ID3Tag :=
  t.remove_frames_by_id "USLT"

/-- `AudioTag::remove_picture` for `ID3Tag`: removes all `APIC` frames. -/
def remove_picture (t : ID3Tag) : ID3Tag :=
  t.remove_frames_by_id "APIC"

/-- `AudioTag::set_picture` for `ID3Tag`: removes all pictures, then adds
one with type `Other`. -/
def set_picture (t : ID3Tag) (mime_type : String) (data : List Nat) : ID3Tag :=
  let t := t.remove_picture
  t.add_picture mime_type picture_type.Other data

end ID3Tag

/-- Modelled from the spec: `util::unsynchsafe(x)` (in `util.rs`, not part
of the provided source) equals
`(x & 0x7F) | ((x & 0x7F00) >> 1) | ((x & 0x7F0000) >> 2) |
 ((x & 0x7F000000) >> 3)`. -/
def unsynchsafe (x : Nat) : Nat :=
  (x &&& 0x7F) ||| ((x &&& 0x7F00) >>> 1) ||| ((x &&& 0x7F0000) >>> 2) |||
    ((x &&& 0x7F000000) >>> 3)

/-- The big-endian 32-bit value of four bytes (`read_be_u32`). -/
def beU32 : List Nat → Nat
  | [a, b, c, d] => ((a * 256 + b) * 256 + c) * 256 + d
  | _ => 0

/-- An open file: the byte contents and the current read position.  All
reads in `tag.rs` go through the operations below; each returns `none`
where the corresponding old-Rust `IoResult` is an error. -/
structure FsFile where
  bytes : List Nat
  pos : Nat
deriving DecidableEq, Repr

namespace FsFile

/-- `Reader::read_exact(n)`: exactly `n` bytes from the current position,
an error when fewer are available. -/
def read_exact (f : FsFile) (n : Nat) : Option (List Nat × FsFile) :=
  if f.pos + n ≤ f.bytes.length then
    some ((f.bytes.drop f.pos).take n, { f with pos := f.pos + n })
  else none

/-- `Reader::read_be_u32()`: four bytes, big-endian. -/
def read_be_u32 (f : FsFile) : Option (Nat × FsFile) :=
  (f.read_exact 4).map (fun r => (beU32 r.1, r.2))

/-- `Seek::seek(n, SeekSet)`: seeking to any non-negative position
succeeds, also past the end of the file. -/
def seek_set (f : FsFile) (n : Nat) : Option FsFile :=
  some { f with pos := n }

/-- `Seek::seek(n, SeekCur)` with a non-negative displacement. -/
def seek_cur (f : FsFile) (n : Nat) : Option FsFile :=
  some { f with pos := f.pos + n }

/-- `Reader::read_to_end()`: the bytes from the current position to the end
of the file (empty when the position is at or past the end). -/
def read_to_end (f : FsFile) : Option (List Nat × FsFile) :=
  some (f.bytes.drop f.pos, { f with pos := f.bytes.length })

end FsFile

/-- The error arm of the `try_io!` macro in `skip_metadata`: seek to 0 and
read the whole file, returning the empty sequence only if that fallback
itself fails. -/
def tryIoFallback (f : FsFile) : List Nat :=
  match f.seek_set 0 with
  | none => []
  | some f1 =>
    match f1.read_to_end with
    | none => []
    | some r => r.1

/-- The bytes `"ID3"`. -/
def id3Magic : List Nat := [73, 68, 51]

/-- `AudioTag::skip_metadata` for `ID3Tag`.  The path argument is modelled
as `Option (List Nat)`: `none` is a path whose `File::open` fails, `some
bytes` opens a file with those contents.  Each fallible step either
continues or takes the `try_io!` fallback. -/
def skip_metadata (input : Option (List Nat)) : List Nat :=
  match input with
  | none => []
  | some bs =>
    let f0 : FsFile := ⟨bs, 0⟩
    match f0.read_exact 3 with
    | none => tryIoFallback f0
    | some (ident, f1) =>
      if ident = id3Magic then
        match f1.seek_cur 3 with
        | none => tryIoFallback f1
        | some f2 =>
          match f2.read_be_u32 with
          | none => tryIoFallback f2
          | some (size, f3) =>
            match f3.seek_set (10 + unsynchsafe size) with
            | none => tryIoFallback f3
            | some f4 =>
              match f4.read_to_end with
              | none => tryIoFallback f4
              | some r => r.1
      else
        match f1.seek_set 0 with
        | none => tryIoFallback f1
        | some f4 =>
          match f4.read_to_end with
          | none => tryIoFallback f4
          | some r => r.1

/-- `AudioTag::is_candidate` for `ID3Tag`: true exactly when the file opens
and its first three bytes are `"ID3"` (`try_or_false!` turns every error
into `false`). -/
def is_candidate (input : Option (List Nat)) : Bool :=
  match input with
  | none => false
  | some bs =>
    match (⟨bs, 0⟩ : FsFile).read_exact 3 with
    | none => false
    | some (ident, _) => ident == id3Magic

/-- The `DEFAULT_FILE_DISCARD` identifier list of `write`. -/
def DEFAULT_FILE_DISCARD : List String :=
  ["AENC", "ETCO", "EQUA", "MLLT", "POSS", "SYLT", "SYTC", "RVAD", "TENC",
   "TLEN", "TSIZ"]

/-- The frame loop of the full-rewrite branch of `write`: `pos` is
`file.tell()`.  A frame with a nonzero offset whose flags (or, on file
change, whose identifier) demand discard is dropped; every other frame
records the current position as its new offset and its serialized bytes
(`szf f` of them, modelling `frame.to_bytes` whose length the tag engine
does not inspect) are written. -/
def writeFramesRewrite (szf : Frame → Nat) (file_changed : Bool) :
    List Frame → Nat → (List Frame × Nat)
  | [], pos => ([], pos)
  | f :: fs, pos =>
    if f.offset ≠ 0 ∧ (f.flags.tag_alter_preservation ∨
        (file_changed ∧ (f.flags.file_alter_preservation ∨ f.id ∈ DEFAULT_FILE_DISCARD))) then
      writeFramesRewrite szf file_changed fs pos
    else
      let r := writeFramesRewrite szf file_changed fs (pos + szf f)
      ({ f with offset := pos } :: r.1, r.2)

/-- The frame loop of the partial-overwrite branch of `write`: a frame with
a nonzero offset and `tag_alter_preservation` is dropped; a frame with
offset 0 or offset beyond the watermark is re-written at the current
position; any other frame is left in place (the position does not move). -/
def writeFramesPartial (szf : Frame → Nat) (modified_offset : Nat) :
    List Frame → Nat → (List Frame × Nat)
  | [], pos => ([], pos)
  | f :: fs, pos =>
    if f.offset ≠ 0 ∧ f.flags.tag_alter_preservation then
      writeFramesPartial szf modified_offset fs pos
    else if f.offset = 0 ∨ f.offset > modified_offset then
      let r := writeFramesPartial szf modified_offset fs (pos + szf f)
      ({ f with offset := pos } :: r.1, r.2)
    else
      let r := writeFramesPartial szf modified_offset fs pos
      (f :: r.1, r.2)

namespace ID3Tag

/-- `AudioTag::write` for `ID3Tag`, restricted to its effect on the tag
state (the byte stream written to the file carries no further tag state).
`szf` gives the length of `frame.to_bytes` for each frame; `to_bytes`
lives in `frame.rs`, which is not part of the provided source, so the
length function is taken as a parameter.  Mirrors the source: decide
rewrite vs overwrite, serialize all frames (summing `new_size`), force a
rewrite when the frames outgrow the declared size, add 2048 bytes of
padding, then run the branch's frame loop; both branches end with
`self.modified_offset = self.offset`. -/
def write (t : ID3Tag) (szf : Frame → Nat) (path : String) : ID3Tag :=
  let file_changed : Bool := match t.path with
    | none => true
    | some p => p ≠ path
  let rewrite0 := t.rewrite || file_changed || t.flags.extended_header
  let t := if rewrite0 then
      { t with flags := { t.flags with extended_header := false },
               version := (4, 0) }
    else t
  let t := { t with path := some path }
  let new_size := (t.frames.map szf).sum
  let rewrite := rewrite0 || decide (new_size > t.size)
  let new_size := new_size + 2048
  if rewrite then
    let t := { t with size := new_size }
    let r := writeFramesRewrite szf file_changed t.frames 10
    { t with frames := r.1, offset := r.2, modified_offset := r.2 }
  else
    let r := writeFramesPartial szf t.modified_offset t.frames t.modified_offset
    { t with frames := r.1, offset := r.2, modified_offset := r.2 }

/-- `AudioTag::save` for `ID3Tag`: `self.path.clone().unwrap()` panics when
the tag has no source path (modelled as `none`), before `write` is ever
reached; with a path it forwards to `write`. -/
def save (t : ID3Tag) (szf : Frame → Nat) : Option ID3Tag :=
  match t.path with
  | none => none
  | some path => some (t.write szf path)

end ID3Tag

/-- All frame uuids are below the state of the uuid generator, so the next
generated uuid is fresh. -/
def UuidFresh (t : ID3Tag) : Prop :=
  ∀ f ∈ t.frames, f.uuid < t.next_uuid

/-- The container invariant of the spec: the watermark never exceeds the
end-of-frames offset, and the uuid generator is ahead of every stored
frame. -/
def TagInv (t : ID3Tag) : Prop :=
  t.modified_offset ≤ t.offset ∧ UuidFresh t

/-- The public container operations of `ID3Tag` (plus `save`/`write`), as
one syntactic type so that sequences of operations can be quantified
over.  `save` and `write` carry the serialized-length oracle `szf` (see
`ID3Tag.write`). -/
inductive Op where
  | addFrame (f : Frame)
  | addTextFrame (id text : String)
  | addTextFrameEnc (id text : String) (e : Encoding)
  | addTxxx (key value : String)
  | addTxxxEnc (key value : String) (e : Encoding)
  | addComment (description text : String)
  | addCommentEnc (description text : String) (e : Encoding)
  | addPicture (mime : String) (pt : PictureType) (data : List Nat)
  | addPictureEnc (mime : String) (pt : PictureType) (description : String)
      (data : List Nat) (e : Encoding)
  | removeFrameByUuid (uuid : Nat)
  | removeFramesById (id : String)
  | removeTxxx (key value : Option String)
  | removeComment (key value : Option String)
  | removePictureType (pt : PictureType)
  | setArtist (s : String)
  | setArtistEnc (s : String) (e : Encoding)
  | setAlbumArtist (s : String)
  | setAlbumArtistEnc (s : String) (e : Encoding)
  | setAlbum (s : String)
  | setAlbumEnc (s : String) (e : Encoding)
  | setTitle (s : String)
  | setTitleEnc (s : String) (e : Encoding)
  | setGenre (s : String)
  | setGenreEnc (s : String) (e : Encoding)
  | setYear (n : Nat)
  | setYearEnc (n : Nat) (e : Encoding)
  | setTrack (n : Nat)
  | setTrackEnc (n : Nat) (e : Encoding)
  | setTotalTracks (n : Nat)
  | setTotalTracksEnc (n : Nat) (e : Encoding)
  | setLyrics (s : String)
  | setLyricsEnc (s : String) (e : Encoding)
  | setPicture (mime : String) (data : List Nat)
  | removeArtist
  | removeAlbumArtist
  | removeAlbum
  | removeTitle
  | removeGenre
  | removeTrack
  | removeTotalTracks
  | removeLyrics
  | removePicture
  | opSave (szf : Frame → Nat)
  | opWrite (szf : Frame → Nat) (path : String)

/-- Run one operation; `none` models a panic (`save` on a tag without a
source path). -/
def applyOp : Op → ID3Tag → Option ID3Tag
  | Op.addFrame f, t => some (t.add_frame f)
  | Op.addTextFrame id text, t => some (t.add_text_frame id text)
  | Op.addTextFrameEnc id text e, t => some (t.add_text_frame_enc id text e)
  | Op.addTxxx k v, t => some (t.add_txxx k v)
  | Op.addTxxxEnc k v e, t => some (t.add_txxx_enc k v e)
  | Op.addComment d s, t => some (t.add_comment d s)
  | Op.addCommentEnc d s e, t => some (t.add_comment_enc d s e)
  | Op.addPicture m pt d, t => some (t.add_picture m pt d)
  | Op.addPictureEnc m pt desc d e, t => some (t.add_picture_enc m pt desc d e)
  | Op.removeFrameByUuid u, t => some (t.remove_frame_by_uuid u)
  | Op.removeFramesById id, t => some (t.remove_frames_by_id id)
  | Op.removeTxxx k v, t => some (t.remove_txxx k v)
  | Op.removeComment k v, t => some (t.remove_comment k v)
  | Op.removePictureType pt, t => some (t.remove_picture_type pt)
  | Op.setArtist s, t => some (t.set_artist s)
  | Op.setArtistEnc s e, t => some (t.set_artist_enc s e)
  | Op.setAlbumArtist s, t => some (t.set_album_artist s)
  | Op.setAlbumArtistEnc s e, t => some (t.set_album_artist_enc s e)
  | Op.setAlbum s, t => some (t.set_album s)
  | Op.setAlbumEnc s e, t => some (t.set_album_enc s e)
  | Op.setTitle s, t => some (t.set_title s)
  | Op.setTitleEnc s e, t => some (t.set_title_enc s e)
  | Op.setGenre s, t => some (t.set_genre s)
  | Op.setGenreEnc s e, t => some (t.set_genre_enc s e)
  | Op.setYear n, t => some (t.set_year n)
  | Op.setYearEnc n e, t => some (t.set_year_enc n e)
  | Op.setTrack n, t => some (t.set_track n)
  | Op.setTrackEnc n e, t => some (t.set_track_enc n e)
  | Op.setTotalTracks n, t => some (t.set_total_tracks n)
  | Op.setTotalTracksEnc n e, t => some (t.set_total_tracks_enc n e)
  | Op.setLyrics s, t => some (t.set_lyrics s)
  | Op.setLyricsEnc s e, t => some (t.set_lyrics_enc s e)
  | Op.setPicture m d, t => some (t.set_picture m d)
  | Op.removeArtist, t => some t.remove_artist
  | Op.removeAlbumArtist, t => some t.remove_album_artist
  | Op.removeAlbum, t => some t.remove_album
  | Op.removeTitle, t => some t.remove_title
  | Op.removeGenre, t => some t.remove_genre
  | Op.removeTrack, t => some t.remove_track
  | Op.removeTotalTracks, t => some t.remove_total_tracks
  | Op.removeLyrics, t => some t.remove_lyrics
  | Op.removePicture, t => some t.remove_picture
  | Op.opSave szf, t => t.save szf
  | Op.opWrite szf p, t => some (t.write szf p)

/-- Run a sequence of operations, stopping at the first panic. -/
def applyOps : List Op → ID3Tag → Option ID3Tag
  | [], t => some t
  | op :: ops, t =>
    match applyOp op t with
    | none => none
    | some t' => applyOps ops t'

/-- The minimum of the nonzero entries of a list, `none` when there are
none.  This is the spec-side description of the local watermark computed by
the removal loops. -/
def minNonzero : List Nat → Option Nat
  | [] => none
  | o :: l =>
    if o = 0 then minNonzero l
    else
      match minNonzero l with
      | none => some o
      | some m => some (min o m)

/-- The watermark after a removal, stated from the spec sentence as the
code actually implements it: removed frames with offset 0 are ignored; when
some removed frame has a nonzero offset `o` (taking `o` minimal), the
watermark becomes `min(watermark, o)` when it was nonzero and stays 0 when
it was 0. -/
def watermarkAfterSpec (mo : Nat) (offs : List Nat) : Nat :=
  match minNonzero offs with
  | none => mo
  | some o => if mo = 0 then mo else min mo o

/-- A frame with a nonzero on-disk offset, for exercising the watermark
update. -/
def watermarkZeroFrame : Frame :=
  { id := "TIT2", uuid := 0, encoding := Encoding.UTF8,
    contents := TextContent "x", offset := 5, flags := FrameFlags.new }

/-- A tag whose watermark is 0 while it holds a frame with nonzero offset
(the state the C1 wording quantifies over). -/
def watermarkZeroTag : ID3Tag :=
  { ID3Tag.new with frames := [watermarkZeroFrame], offset := 7, next_uuid := 1 }

/-- A tag holding one `TSOP` frame. -/
def tagWithTsop : ID3Tag :=
  ID3Tag.new.add_frame (Frame.new "TSOP")

/-- A tag whose only frame is a `TRCK` text frame with payload `"5/13"`. -/
def trckTag : ID3Tag :=
  ID3Tag.new.add_text_frame "TRCK" "5/13"

/-- The first `TRCK` frame of `trckTag`, written out. -/
def trckFrame : Frame :=
  { id := "TRCK", uuid := 0, encoding := Encoding.UTF8,
    contents := TextContent "5/13", offset := 0, flags := FrameFlags.new }

/-- A tag whose only frame is a `TRCK` text frame with payload `"7/x/y"`. -/
def trckMultiSlashTag : ID3Tag :=
  ID3Tag.new.add_text_frame "TRCK" "7/x/y"

/-- The first `TRCK` frame of `trckMultiSlashTag`, written out. -/
def trckMultiSlashFrame : Frame :=
  { id := "TRCK", uuid := 0, encoding := Encoding.UTF8,
    contents := TextContent "7/x/y", offset := 0, flags := FrameFlags.new }

/-- The amended C8 parse, stated from the amended claim's words: the
payload is split at at most two `/` (pre-1.0 `splitn(2, '/')`, up to three
pieces); with exactly two pieces both must parse as numbers, otherwise the
result is `none`; with one or three pieces the total is `none` and the
first piece alone must parse.  `track_pair` is proved equal to this
description. -/
def trackPairSpec (s : String) : Option (Nat × Option Nat) :=
  let split := splitn 2 '/' s
  if split.length = 2 then
    match from_str_u32 (split.getD 0 ""), from_str_u32 (split.getD 1 "") with
    | some track, some total_tracks => some (track, some total_tracks)
    | _, _ => none
  else
    match from_str_u32 (split.getD 0 "") with
    | some track => some (track, none)
    | none => none

/-- Scenario E3, step 0: five user text frames. -/
def txxxStep0 : ID3Tag :=
  ((((ID3Tag.new.add_txxx "key1" "value1").add_txxx "key2" "value2").add_txxx
      "key3" "value2").add_txxx "key4" "value3").add_txxx "key5" "value4"

/-- Scenario E3, step 1: remove by key only. -/
def txxxStep1 : ID3Tag := txxxStep0.remove_txxx (some "key1") none

/-- Scenario E3, step 2: remove by value only. -/
def txxxStep2 : ID3Tag := txxxStep1.remove_txxx none (some "value2")

/-- Scenario E3, step 3: remove by key and value. -/
def txxxStep3 : ID3Tag := txxxStep2.remove_txxx (some "key4") (some "value3")

/-- Scenario E3, step 4: remove all. -/
def txxxStep4 : ID3Tag := txxxStep3.remove_txxx none none

/-- A minimal well-formed ID3 file: header with version 2.4, zero flags and
zero declared size, no frames. -/
def emptyId3File : List Nat := [73, 68, 51, 4, 0, 0, 0, 0, 0, 0]

theorem minNonzero_ne_zero : ∀ (l : List Nat) (o : Nat), minNonzero l = some o → o ≠ 0 := by
  intro l
  induction l with
  | nil => intro o h; simp [minNonzero] at h
  | cons a l ih =>
    intro o h
    by_cases ha : a = 0
    · simp [minNonzero, ha] at h
      exact ih o h
    · simp [minNonzero, ha] at h
      cases hm : minNonzero l with
      | none => rw [hm] at h; simp at h; omega
      | some m =>
        rw [hm] at h; simp at h
        have := ih m hm
        omega

theorem foldl_set_modified_offset (l : List Nat) :
    ∀ m : Nat, l.foldl set_modified_offset m =
      match minNonzero l with
      | none => m
      | some o => if m = 0 then o else min m o := by
  induction l with
  | nil => intro m; simp [minNonzero]
  | cons a l ih =>
    intro m
    rw [List.foldl_cons, ih (set_modified_offset m a)]
    by_cases ha : a = 0
    · have hsm : set_modified_offset m a = m := by
        simp [set_modified_offset, ha]
      rw [hsm]
      simp [minNonzero, ha]
    · by_cases hm : m = 0
      · have hsm : set_modified_offset m a = a := by
          simp [set_modified_offset, hm, ha]
        rw [hsm]
        cases hml : minNonzero l with
        | none => simp [minNonzero, ha, hml, hm, ha]
        | some w => simp [minNonzero, ha, hml, hm, ha]
      · have hsm : set_modified_offset m a = min m a := by
          unfold set_modified_offset
          rw [Nat.min_def]
          split <;> split <;> omega
        rw [hsm]
        have hmin : ¬ (min m a = 0) := by
          rw [Nat.min_def]
          split <;> omega
        cases hml : minNonzero l with
        | none =>
          simp only [minNonzero, if_neg ha, hml]
          simp [hm, hmin]
        | some w =>
          simp only [minNonzero, if_neg ha, hml]
          simp only [hm, hmin, if_neg]
          rw [Nat.min_assoc]
          simp [hm]

theorem retainWith_fst (remP updP : Frame → Bool) :
    ∀ (fs : List Frame) (m : Nat),
      (retainWith remP updP fs m).1 = fs.filter (fun f => !remP f) := by
  intro fs
  induction fs with
  | nil => intro m; simp [retainWith]
  | cons f fs ih =>
    intro m
    by_cases h : remP f
    · simp [retainWith, h, ih, List.filter_cons]
    · simp [retainWith, h, ih, List.filter_cons]

theorem retainWith_snd (remP updP : Frame → Bool) :
    ∀ (fs : List Frame) (m : Nat),
      (retainWith remP updP fs m).2 =
        ((fs.filter (fun f => remP f && updP f)).map Frame.offset).foldl
          set_modified_offset m := by
  intro fs
  induction fs with
  | nil => intro m; simp [retainWith]
  | cons f fs ih =>
    intro m
    by_cases h : remP f
    · by_cases hu : updP f
      · simp [retainWith, h, hu, ih, List.filter_cons]
      · simp [retainWith, h, hu, ih, List.filter_cons]
    · simp [retainWith, h, ih, List.filter_cons]

theorem retainUpdate_frames (t : ID3Tag) (remP updP : Frame → Bool) :
    (retainUpdate t remP updP).frames = t.frames.filter (fun f => !remP f) := by
  simp [retainUpdate, retainWith_fst]

theorem retainUpdate_modified_offset (t : ID3Tag) (remP updP : Frame → Bool) :
    (retainUpdate t remP updP).modified_offset =
      watermarkAfterSpec t.modified_offset
        ((t.frames.filter (fun f => remP f && updP f)).map Frame.offset) := by
  unfold retainUpdate watermarkAfterSpec
  dsimp only
  rw [retainWith_snd, foldl_set_modified_offset]
  cases hml : minNonzero ((t.frames.filter (fun f => remP f && updP f)).map Frame.offset) with
  | none => simp
  | some o =>
    have ho := minNonzero_ne_zero _ o hml
    have hin : (if (0 : Nat) = 0 then o else min 0 o) = o := by norm_num
    dsimp only
    rw [hin]
    by_cases hmo : t.modified_offset = 0
    · simp [hmo]
    · rw [Nat.min_def]
      split_ifs <;> omega

theorem retainUpdate_offset (t : ID3Tag) (remP updP : Frame → Bool) :
    (retainUpdate t remP updP).offset = t.offset := rfl

theorem retainUpdate_next_uuid (t : ID3Tag) (remP updP : Frame → Bool) :
    (retainUpdate t remP updP).next_uuid = t.next_uuid := rfl

theorem retainUpdate_modified_offset_le (t : ID3Tag) (remP updP : Frame → Bool) :
    (retainUpdate t remP updP).modified_offset ≤ t.modified_offset := by
  rw [retainUpdate_modified_offset]
  unfold watermarkAfterSpec
  cases minNonzero ((t.frames.filter (fun f => remP f && updP f)).map Frame.offset) with
  | none => exact Nat.le_refl _
  | some o =>
    by_cases hmo : t.modified_offset = 0
    · simp [hmo]
    · simp only [if_neg hmo]
      exact Nat.min_le_left _ _

theorem TagInv_retainUpdate (t : ID3Tag) (remP updP : Frame → Bool)
    (h : TagInv t) : TagInv (retainUpdate t remP updP) := by
  obtain ⟨h1, h2⟩ := h
  constructor
  · calc (retainUpdate t remP updP).modified_offset
        ≤ t.modified_offset := retainUpdate_modified_offset_le t remP updP
      _ ≤ t.offset := h1
  · intro f hf
    rw [retainUpdate_frames] at hf
    rw [retainUpdate_next_uuid]
    exact h2 f (List.mem_of_mem_filter hf)

theorem removeFirstByUuid_eq (uuid : Nat) :
    ∀ fs : List Frame,
      ID3Tag.removeFirstByUuid uuid fs =
        (fs.eraseP (fun f => f.uuid == uuid),
         (fs.find? (fun f => f.uuid == uuid)).map Frame.offset) := by
  intro fs
  induction fs with
  | nil => simp [ID3Tag.removeFirstByUuid]
  | cons f fs ih =>
    by_cases h : f.uuid = uuid
    · simp [ID3Tag.removeFirstByUuid, h, List.eraseP_cons, List.find?_cons]
    · simp [ID3Tag.removeFirstByUuid, h, List.eraseP_cons, List.find?_cons, ih]

theorem remove_frame_by_uuid_frames (t : ID3Tag) (uuid : Nat) :
    (t.remove_frame_by_uuid uuid).frames =
      t.frames.eraseP (fun f => f.uuid == uuid) := by
  unfold ID3Tag.remove_frame_by_uuid
  dsimp only
  rw [removeFirstByUuid_eq]
  cases hf : t.frames.find? (fun f => f.uuid == uuid) with
  | none =>
    have hner : t.frames.eraseP (fun f => f.uuid == uuid) = t.frames := by
      apply List.eraseP_of_forall_not
      intro a ha
      have := List.find?_eq_none.mp hf a ha
      simpa using this
    simp [hner]
  | some f => simp

theorem remove_frame_by_uuid_modified_offset (t : ID3Tag) (uuid : Nat) :
    (t.remove_frame_by_uuid uuid).modified_offset =
      watermarkAfterSpec t.modified_offset
        (((t.frames.find? (fun f => f.uuid == uuid)).map Frame.offset).toList) := by
  unfold ID3Tag.remove_frame_by_uuid
  dsimp only
  rw [removeFirstByUuid_eq]
  cases hf : t.frames.find? (fun f => f.uuid == uuid) with
  | none => simp [watermarkAfterSpec, minNonzero]
  | some f =>
    simp only [Option.map, Option.toList]
    unfold watermarkAfterSpec
    by_cases ho : f.offset = 0
    · simp [minNonzero, ho]
    · simp only [minNonzero, if_neg ho]
      by_cases hmo : t.modified_offset = 0
      · simp [hmo]
      · simp only [if_neg hmo]
        rw [Nat.min_def]
        split_ifs <;> omega

theorem remove_frame_by_uuid_offset (t : ID3Tag) (uuid : Nat) :
    (t.remove_frame_by_uuid uuid).offset = t.offset := by
  unfold ID3Tag.remove_frame_by_uuid
  dsimp only
  cases h : (ID3Tag.removeFirstByUuid uuid t.frames).2 with
  | none => rfl
  | some o => rfl

theorem remove_frame_by_uuid_next_uuid (t : ID3Tag) (uuid : Nat) :
    (t.remove_frame_by_uuid uuid).next_uuid = t.next_uuid := by
  unfold ID3Tag.remove_frame_by_uuid
  dsimp only
  cases h : (ID3Tag.removeFirstByUuid uuid t.frames).2 with
  | none => rfl
  | some o => rfl

theorem remove_frame_by_uuid_modified_offset_le (t : ID3Tag) (uuid : Nat) :
    (t.remove_frame_by_uuid uuid).modified_offset ≤ t.modified_offset := by
  rw [remove_frame_by_uuid_modified_offset]
  unfold watermarkAfterSpec
  cases minNonzero (((t.frames.find? (fun f => f.uuid == uuid)).map Frame.offset).toList) with
  | none => exact Nat.le_refl _
  | some o =>
    by_cases hmo : t.modified_offset = 0
    · simp [hmo]
    · simp only [if_neg hmo]
      exact Nat.min_le_left _ _

theorem TagInv_remove_frame_by_uuid (t : ID3Tag) (uuid : Nat)
    (h : TagInv t) : TagInv (t.remove_frame_by_uuid uuid) := by
  obtain ⟨h1, h2⟩ := h
  constructor
  · rw [remove_frame_by_uuid_offset]
    calc (t.remove_frame_by_uuid uuid).modified_offset
        ≤ t.modified_offset := remove_frame_by_uuid_modified_offset_le t uuid
      _ ≤ t.offset := h1
  · intro f hf
    rw [remove_frame_by_uuid_frames] at hf
    rw [remove_frame_by_uuid_next_uuid]
    exact h2 f ((List.eraseP_sublist t.frames).mem hf)

theorem add_frame_frames (t : ID3Tag) (f : Frame) :
    (t.add_frame f).frames =
      t.frames ++ [{ f with uuid := t.next_uuid, offset := 0 }] := rfl

theorem TagInv_add_frame (t : ID3Tag) (f : Frame) (h : TagInv t) :
    TagInv (t.add_frame f) := by
  obtain ⟨h1, h2⟩ := h
  constructor
  · exact h1
  · intro g hg
    rw [add_frame_frames] at hg
    rcases List.mem_append.mp hg with hg | hg
    · have := h2 g hg
      show g.uuid < t.next_uuid + 1
      omega
    · rw [List.mem_singleton] at hg
      subst hg
      show t.next_uuid < t.next_uuid + 1
      omega

theorem writeFramesRewrite_uuid (szf : Frame → Nat) (fc : Bool) :
    ∀ (fs : List Frame) (pos : Nat) (g : Frame),
      g ∈ (writeFramesRewrite szf fc fs pos).1 → ∃ f ∈ fs, g.uuid = f.uuid := by
  intro fs
  induction fs with
  | nil => intro pos g hg; simp [writeFramesRewrite] at hg
  | cons f fs ih =>
    intro pos g hg
    unfold writeFramesRewrite at hg
    split at hg
    · obtain ⟨f', hf', he⟩ := ih pos g hg
      exact ⟨f', List.mem_cons_of_mem f hf', he⟩
    · rcases List.mem_cons.mp hg with hg | hg
      · subst hg
        exact ⟨f, List.mem_cons_self f fs, rfl⟩
      · obtain ⟨f', hf', he⟩ := ih (pos + szf f) g hg
        exact ⟨f', List.mem_cons_of_mem f hf', he⟩

theorem writeFramesPartial_uuid (szf : Frame → Nat) (mo : Nat) :
    ∀ (fs : List Frame) (pos : Nat) (g : Frame),
      g ∈ (writeFramesPartial szf mo fs pos).1 → ∃ f ∈ fs, g.uuid = f.uuid := by
  intro fs
  induction fs with
  | nil => intro pos g hg; simp [writeFramesPartial] at hg
  | cons f fs ih =>
    intro pos g hg
    unfold writeFramesPartial at hg
    split at hg
    · obtain ⟨f', hf', he⟩ := ih pos g hg
      exact ⟨f', List.mem_cons_of_mem f hf', he⟩
    · split at hg
      · rcases List.mem_cons.mp hg with hg | hg
        · subst hg
          exact ⟨f, List.mem_cons_self f fs, rfl⟩
        · obtain ⟨f', hf', he⟩ := ih (pos + szf f) g hg
          exact ⟨f', List.mem_cons_of_mem f hf', he⟩
      · rcases List.mem_cons.mp hg with hg | hg
        · exact ⟨f, List.mem_cons_self f fs, by rw [hg]⟩
        · obtain ⟨f', hf', he⟩ := ih pos g hg
          exact ⟨f', List.mem_cons_of_mem f hf', he⟩

theorem write_modified_offset_eq_offset (t : ID3Tag) (szf : Frame → Nat) (path : String) :
    (t.write szf path).modified_offset = (t.write szf path).offset := by
  unfold ID3Tag.write
  dsimp only
  split_ifs <;> rfl

theorem write_next_uuid (t : ID3Tag) (szf : Frame → Nat) (path : String) :
    (t.write szf path).next_uuid = t.next_uuid := by
  unfold ID3Tag.write
  dsimp only
  split_ifs <;> rfl

theorem write_frames_uuid (t : ID3Tag) (szf : Frame → Nat) (path : String)
    (g : Frame) (hg : g ∈ (t.write szf path).frames) :
    ∃ f ∈ t.frames, g.uuid = f.uuid := by
  unfold ID3Tag.write at hg
  dsimp only at hg
  split_ifs at hg <;>
    first
      | exact writeFramesRewrite_uuid _ _ _ _ _ hg
      | exact writeFramesPartial_uuid _ _ _ _ _ hg

theorem TagInv_write (t : ID3Tag) (szf : Frame → Nat) (path : String)
    (h : TagInv t) : TagInv (t.write szf path) := by
  obtain ⟨-, h2⟩ := h
  constructor
  · rw [write_modified_offset_eq_offset]
  · intro g hg
    obtain ⟨f, hf, he⟩ := write_frames_uuid t szf path g hg
    rw [write_next_uuid, he]
    exact h2 f hf

theorem TagInv_save (t : ID3Tag) (szf : Frame → Nat) (t' : ID3Tag)
    (h : TagInv t) (hs : t.save szf = some t') : TagInv t' := by
  unfold ID3Tag.save at hs
  cases hp : t.path with
  | none => rw [hp] at hs; exact absurd hs (by simp)
  | some p =>
    rw [hp] at hs
    have := Option.some.inj hs
    rw [← this]
    exact TagInv_write t szf p h

theorem TagInv_applyOp (op : Op) (t t' : ID3Tag) (h : TagInv t)
    (ha : applyOp op t = some t') : TagInv t' := by
  cases op with
  | addFrame f => cases ha; exact TagInv_add_frame _ _ h
  | addTextFrame id text => cases ha; exact TagInv_add_frame _ _ (TagInv_retainUpdate _ _ _ h)
  | addTextFrameEnc id text e => cases ha; exact TagInv_add_frame _ _ (TagInv_retainUpdate _ _ _ h)
  | addTxxx k v => cases ha; exact TagInv_add_frame _ _ (TagInv_retainUpdate _ _ _ h)
  | addTxxxEnc k v e => cases ha; exact TagInv_add_frame _ _ (TagInv_retainUpdate _ _ _ h)
  | addComment d s => cases ha; exact TagInv_add_frame _ _ (TagInv_retainUpdate _ _ _ h)
  | addCommentEnc d s e => cases ha; exact TagInv_add_frame _ _ (TagInv_retainUpdate _ _ _ h)
  | addPicture m pt d => cases ha; exact TagInv_add_frame _ _ (TagInv_retainUpdate _ _ _ h)
  | addPictureEnc m pt desc d e =>
    cases ha; exact TagInv_add_frame _ _ (TagInv_retainUpdate _ _ _ h)
  | removeFrameByUuid u => cases ha; exact TagInv_remove_frame_by_uuid _ _ h
  | removeFramesById id => cases ha; exact TagInv_retainUpdate _ _ _ h
  | removeTxxx k v => cases ha; exact TagInv_retainUpdate _ _ _ h
  | removeComment k v => cases ha; exact TagInv_retainUpdate _ _ _ h
  | removePictureType pt => cases ha; exact TagInv_retainUpdate _ _ _ h
  | setArtist s => cases ha; exact TagInv_add_frame _ _ (TagInv_retainUpdate _ _ _ h)
  | setArtistEnc s e => cases ha; exact TagInv_add_frame _ _ (TagInv_retainUpdate _ _ _ h)
  | setAlbumArtist s => cases ha; exact TagInv_add_frame _ _ (TagInv_retainUpdate _ _ _ h)
  | setAlbumArtistEnc s e =>
    cases ha
    exact TagInv_add_frame _ _ (TagInv_retainUpdate _ _ _ (TagInv_retainUpdate _ _ _ h))
  | setAlbum s =>
    cases ha
    exact TagInv_add_frame _ _ (TagInv_retainUpdate _ _ _ (TagInv_retainUpdate _ _ _ h))
  | setAlbumEnc s e => cases ha; exact TagInv_add_frame _ _ (TagInv_retainUpdate _ _ _ h)
  | setTitle s => cases ha; exact TagInv_add_frame _ _ (TagInv_retainUpdate _ _ _ h)
  | setTitleEnc s e =>
    cases ha
    exact TagInv_add_frame _ _ (TagInv_retainUpdate _ _ _ (TagInv_retainUpdate _ _ _ h))
  | setGenre s => cases ha; exact TagInv_add_frame _ _ (TagInv_retainUpdate _ _ _ h)
  | setGenreEnc s e => cases ha; exact TagInv_add_frame _ _ (TagInv_retainUpdate _ _ _ h)
  | setYear n => cases ha; exact TagInv_add_frame _ _ (TagInv_retainUpdate _ _ _ h)
  | setYearEnc n e => cases ha; exact TagInv_add_frame _ _ (TagInv_retainUpdate _ _ _ h)
  | setTrack n => cases ha; exact TagInv_add_frame _ _ (TagInv_retainUpdate _ _ _ h)
  | setTrackEnc n e => cases ha; exact TagInv_add_frame _ _ (TagInv_retainUpdate _ _ _ h)
  | setTotalTracks n => cases ha; exact TagInv_add_frame _ _ (TagInv_retainUpdate _ _ _ h)
  | setTotalTracksEnc n e =>
    cases ha; exact TagInv_add_frame _ _ (TagInv_retainUpdate _ _ _ h)
  | setLyrics s => cases ha; exact TagInv_add_frame _ _ (TagInv_retainUpdate _ _ _ h)
  | setLyricsEnc s e => cases ha; exact TagInv_add_frame _ _ (TagInv_retainUpdate _ _ _ h)
  | setPicture m d =>
    cases ha
    exact TagInv_add_frame _ _ (TagInv_retainUpdate _ _ _ (TagInv_retainUpdate _ _ _ h))
  | removeArtist => cases ha; exact TagInv_retainUpdate _ _ _ h
  | removeAlbumArtist => cases ha; exact TagInv_retainUpdate _ _ _ h
  | removeAlbum => cases ha; exact TagInv_retainUpdate _ _ _ (TagInv_retainUpdate _ _ _ h)
  | removeTitle => cases ha; exact TagInv_retainUpdate _ _ _ h
  | removeGenre => cases ha; exact TagInv_retainUpdate _ _ _ h
  | removeTrack => cases ha; exact TagInv_retainUpdate _ _ _ h
  | removeTotalTracks =>
    cases ha
    unfold ID3Tag.remove_total_tracks
    cases htp : t.track_pair with
    | none => exact h
    | some p => exact TagInv_add_frame _ _ (TagInv_retainUpdate _ _ _ h)
  | removeLyrics => cases ha; exact TagInv_retainUpdate _ _ _ h
  | removePicture => cases ha; exact TagInv_retainUpdate _ _ _ h
  | opSave szf => exact TagInv_save t szf t' h ha
  | opWrite szf p => cases ha; exact TagInv_write _ _ _ h

theorem TagInv_applyOps (ops : List Op) :
    ∀ (t t' : ID3Tag), TagInv t → applyOps ops t = some t' → TagInv t' := by
  induction ops with
  | nil =>
    intro t t' h ha
    unfold applyOps at ha
    cases ha
    exact h
  | cons op ops ih =>
    intro t t' h ha
    unfold applyOps at ha
    cases hstep : applyOp op t with
    | none => rw [hstep] at ha; exact absurd ha (by simp)
    | some tmid =>
      rw [hstep] at ha
      exact ih tmid t' (TagInv_applyOp op t tmid h hstep) ha

theorem TagInv_new : TagInv ID3Tag.new := by
  constructor
  · exact Nat.le_refl 0
  · intro f hf
    simp [ID3Tag.new] at hf

theorem TagInv_with_version (v : Nat) : TagInv (ID3Tag.with_version v) := by
  constructor
  · exact Nat.le_refl 0
  · intro f hf
    simp [ID3Tag.with_version, ID3Tag.new] at hf

/-- C2: any tag satisfying the container invariant (as the initial states
do: `new()` and `with_version` start with watermark and offset both 0, and
`load` ends with `tag.modified_offset = tag.offset` at `tag.rs` lines
1052-1053) keeps `modified_offset ≤ offset` under every sequence of
container operations and `save`/`write`; moreover `add_frame` always
appends a frame with offset 0 whose uuid differs from every frame already
stored. -/
theorem c2_invariant_and_fresh_uuid (t0 : ID3Tag) (h0 : TagInv t0)
    (ops : List Op) (t' : ID3Tag) (hreach : applyOps ops t0 = some t') :
    (TagInv ID3Tag.new ∧ ∀ v : Nat, TagInv (ID3Tag.with_version v)) ∧
    t'.modified_offset ≤ t'.offset ∧
    (∀ f : Frame,
      (t'.add_frame f).frames =
        t'.frames ++ [{ f with uuid := t'.next_uuid, offset := 0 }] ∧
      ∀ g ∈ t'.frames, g.uuid ≠ t'.next_uuid) := by
  have hinv := TagInv_applyOps ops t0 t' h0 hreach
  refine ⟨⟨TagInv_new, TagInv_with_version⟩, hinv.1, ?_⟩
  intro f
  refine ⟨add_frame_frames t' f, ?_⟩
  intro g hg
  have := hinv.2 g hg
  omega

/-- Witness for C2 at a concrete reachable state: starting from `new()` and
running `add_txxx`, the watermark invariant holds and the next `add_frame`
is fresh. -/
theorem c2_invariant_and_fresh_uuid_witness :
    (TagInv ID3Tag.new ∧ ∀ v : Nat, TagInv (ID3Tag.with_version v)) ∧
    (ID3Tag.new.add_txxx "k" "v").modified_offset ≤
      (ID3Tag.new.add_txxx "k" "v").offset ∧
    (∀ f : Frame,
      ((ID3Tag.new.add_txxx "k" "v").add_frame f).frames =
        (ID3Tag.new.add_txxx "k" "v").frames ++
          [{ f with uuid := (ID3Tag.new.add_txxx "k" "v").next_uuid, offset := 0 }] ∧
      ∀ g ∈ (ID3Tag.new.add_txxx "k" "v").frames,
        g.uuid ≠ (ID3Tag.new.add_txxx "k" "v").next_uuid) :=
  c2_invariant_and_fresh_uuid ID3Tag.new TagInv_new [Op.addTxxx "k" "v"]
    (ID3Tag.new.add_txxx "k" "v") rfl

/-- C1 counterexample: on a tag whose watermark is 0, removing the frame
with uuid 0 — which has nonzero offset 5 — leaves the watermark at 0; the
claim says it becomes 5. -/
theorem c1_watermark_counterexample :
    watermarkZeroTag.modified_offset = 0 ∧
    watermarkZeroFrame.offset = 5 ∧
    (watermarkZeroTag.remove_frame_by_uuid 0).frames = [] ∧
    (watermarkZeroTag.remove_frame_by_uuid 0).modified_offset = 0 ∧
    (watermarkZeroTag.remove_frame_by_uuid 0).modified_offset ≠ 5 := by
  refine ⟨rfl, rfl, ?_, ?_, ?_⟩ <;> decide

/-- C1 as amended: for each of the five removal operations the new
watermark is `watermarkAfterSpec` of the offsets of the removed
watermark-relevant frames — `min(watermark, o)` for the least nonzero
removed offset `o` when the watermark is nonzero, and unchanged when the
watermark is 0, when no frame is removed, or when all removed frames have
offset 0 (for `remove_picture_type`, an unparseable `APIC` frame is
removed without entering the watermark computation). -/
theorem c1_watermark_amended (t : ID3Tag) (u : Nat) (id : String)
    (k v : Option String) (pt : PictureType) :
    ((t.remove_frame_by_uuid u).modified_offset =
      watermarkAfterSpec t.modified_offset
        (((t.frames.find? (fun f => f.uuid == u)).map Frame.offset).toList)) ∧
    ((t.remove_frames_by_id id).modified_offset =
      watermarkAfterSpec t.modified_offset
        ((t.frames.filter (fun f => f.id == id)).map Frame.offset)) ∧
    ((t.remove_txxx k v).modified_offset =
      watermarkAfterSpec t.modified_offset
        ((t.frames.filter (txxxMatches k v)).map Frame.offset)) ∧
    ((t.remove_comment k v).modified_offset =
      watermarkAfterSpec t.modified_offset
        ((t.frames.filter (commMatches k v)).map Frame.offset)) ∧
    ((t.remove_picture_type pt).modified_offset =
      watermarkAfterSpec t.modified_offset
        ((t.frames.filter (fun f => apicRemoves pt f && apicUpdates pt f)).map
          Frame.offset)) := by
  refine ⟨remove_frame_by_uuid_modified_offset t u, ?_, ?_, ?_, ?_⟩
  · have h := retainUpdate_modified_offset t (fun f => f.id == id) (fun _ => true)
    simpa using h
  · have h := retainUpdate_modified_offset t (txxxMatches k v) (fun _ => true)
    simpa using h
  · have h := retainUpdate_modified_offset t (commMatches k v) (fun _ => true)
    simpa using h
  · exact retainUpdate_modified_offset t (apicRemoves pt) (apicUpdates pt)

/-- C3: `with_version` performs no validation; for the out-of-range version
5 it returns a tag carrying version (5, 0) instead of failing, although its
own doc comment promises a panic. -/
theorem c3_with_version_no_failure :
    (ID3Tag.with_version 5).version = (5, 0) ∧
    (∀ v : Nat, (ID3Tag.with_version v).version = (v, 0)) :=
  ⟨rfl, fun _ => rfl⟩

/-- C10: on a tag without a source path, `save` panics on
`self.path.clone().unwrap()` (modelled as `none`) before `write` is
reached; `new()` and `with_version` both produce such tags. -/
theorem c10_save_without_path_panics (t : ID3Tag) (szf : Frame → Nat)
    (h : t.path = none) :
    t.save szf = none ∧ ID3Tag.new.path = none ∧
    (∀ v : Nat, (ID3Tag.with_version v).path = none) := by
  refine ⟨?_, rfl, fun _ => rfl⟩
  unfold ID3Tag.save
  rw [h]

/-- Witness for C10: saving a fresh `new()` tag panics. -/
theorem c10_save_without_path_panics_witness :
    ID3Tag.new.save (fun _ => 0) = none ∧ ID3Tag.new.path = none ∧
    (∀ v : Nat, (ID3Tag.with_version v).path = none) :=
  c10_save_without_path_panics ID3Tag.new (fun _ => 0) rfl

/-- C7: `remove_txxx` keeps exactly the frames that do not match the
(wildcard) key/value pair — non-`TXXX` frames never match — and the E3
scenario leaves 5, 4, 2, 1 and 0 pairs after the successive removals. -/
theorem c7_remove_txxx_matches (t : ID3Tag) (k v : Option String) :
    ((t.remove_txxx k v).frames =
      t.frames.filter (fun f => !(txxxMatches k v f))) ∧
    (∀ f : Frame, f.id ≠ "TXXX" → txxxMatches k v f = false) ∧
    (txxxStep0.txxx.length = 5 ∧ txxxStep1.txxx.length = 4 ∧
     txxxStep2.txxx.length = 2 ∧ txxxStep3.txxx.length = 1 ∧
     txxxStep4.txxx.length = 0) := by
  refine ⟨retainUpdate_frames t _ _, ?_, ?_, ?_, ?_, ?_, ?_⟩
  · intro f hf
    simp [txxxMatches, hf]
  · decide
  · decide
  · decide
  · decide
  · decide

/-- Witness for C7: the wildcard-removal characterization applied to the E3
tag, and a non-`TXXX` frame that does not match. -/
theorem c7_remove_txxx_matches_witness :
    ((txxxStep0.remove_txxx none none).frames =
      txxxStep0.frames.filter (fun f => !(txxxMatches none none f))) ∧
    txxxMatches none none (Frame.new "TIT2") = false :=
  ⟨(c7_remove_txxx_matches txxxStep0 none none).1,
   (c7_remove_txxx_matches txxxStep0 none none).2.1 (Frame.new "TIT2")
     (by decide)⟩

/-- A frame with an identifier other than `TSOP` appended after the removal
of `TSOP` (and of its own identifier) leaves no `TSOP` frame behind: the
common shape of `set_album` and `set_album_artist_enc`. -/
theorem no_tsop_after_remove_add (t : ID3Tag) (x : String) (fnew : Frame)
    (hid : (fnew.id == "TSOP") = false) :
    (((t.remove_frames_by_id "TSOP").remove_frames_by_id x).add_frame
      fnew).get_frames_by_id "TSOP" = [] := by
  unfold ID3Tag.get_frames_by_id
  rw [add_frame_frames, List.filter_append]
  have h1 : List.filter (fun f => f.id == "TSOP")
      [{ fnew with
          uuid := ((t.remove_frames_by_id "TSOP").remove_frames_by_id x).next_uuid,
          offset := 0 }] = [] := by
    simp [List.filter, hid]
  rw [h1, List.append_nil]
  have h2 : ((t.remove_frames_by_id "TSOP").remove_frames_by_id x).frames =
      (t.frames.filter (fun f => !(f.id == "TSOP"))).filter
        (fun f => !(f.id == x)) := by
    unfold ID3Tag.remove_frames_by_id
    rw [retainUpdate_frames, retainUpdate_frames]
  rw [h2, List.filter_eq_nil_iff]
  intro f hf
  have hin := (List.mem_filter.mp (List.mem_filter.mp hf).1).2
  simpa using hin

/-- A frame already in the tag survives `add_frame`. -/
theorem mem_frames_add_frame (t : ID3Tag) (fr f : Frame) (h : f ∈ t.frames) :
    f ∈ (t.add_frame fr).frames := by
  rw [add_frame_frames]
  exact List.mem_append_left _ h

/-- A frame whose identifier differs survives `remove_frames_by_id`. -/
theorem mem_frames_remove_frames_by_id (t : ID3Tag) (id : String) (f : Frame)
    (h : f ∈ t.frames) (hid : (f.id == id) = false) :
    f ∈ (t.remove_frames_by_id id).frames := by
  unfold ID3Tag.remove_frames_by_id
  rw [retainUpdate_frames]
  exact List.mem_filter.mpr ⟨h, by simp [hid]⟩

/-- C9 counterexample: `set_album_artist` (the facade setter) forwards to
`add_text_frame("TPE2", _)` and does not clear `TSOP`: on a tag holding one
`TSOP` frame it leaves that frame in place, while the claim says none
remains. -/
theorem c9_tsop_counterexample :
    ((tagWithTsop.set_album_artist "x").get_frames_by_id "TSOP").length = 1 ∧
    (tagWithTsop.set_album_artist "x").get_frames_by_id "TSOP" ≠ [] := by
  refine ⟨?_, ?_⟩ <;> decide

/-- C9 as amended: `set_album` clears `TSOP`, and so does
`set_album_artist_enc`; but the facade `set_album_artist` leaves every
`TSOP` frame in the tag. -/
theorem c9_tsop_amended (t : ID3Tag) (s : String) (e : Encoding) :
    (t.set_album s).get_frames_by_id "TSOP" = [] ∧
    (t.set_album_artist_enc s e).get_frames_by_id "TSOP" = [] ∧
    (∀ f ∈ t.frames, f.id = "TSOP" → f ∈ (t.set_album_artist s).frames) := by
  refine ⟨?_, ?_, ?_⟩
  · apply no_tsop_after_remove_add
    rfl
  · apply no_tsop_after_remove_add
    rfl
  · intro f hf hTsop
    have h1 : f ∈ (t.remove_frames_by_id "TPE2").frames :=
      mem_frames_remove_frames_by_id t "TPE2" f hf (by rw [hTsop]; decide)
    exact mem_frames_add_frame _ _ _ h1

/-- Witness for C9 (amended): on the concrete tag with one `TSOP` frame,
`set_album` clears it and the facade `set_album_artist` keeps it. -/
theorem c9_tsop_amended_witness :
    (tagWithTsop.set_album "a").get_frames_by_id "TSOP" = [] ∧
    Frame.new "TSOP" ∈ (tagWithTsop.set_album_artist "x").frames :=
  ⟨(c9_tsop_amended tagWithTsop "a" Encoding.UTF8).1,
   (c9_tsop_amended tagWithTsop "x" Encoding.UTF8).2.2 (Frame.new "TSOP")
     (by decide) rfl⟩

theorem remove_picture_type_frames (t : ID3Tag) (pt : PictureType) :
    (t.remove_picture_type pt).frames =
      t.frames.filter (fun f => !(apicRemoves pt f)) :=
  retainUpdate_frames t _ _

/-- After `remove_picture_type pt`, no surviving picture has type `pt`. -/
theorem pictures_remove_picture_type (t : ID3Tag) (pt : PictureType) :
    ((t.remove_picture_type pt).pictures).filter
      (fun p => p.picture_type == pt) = [] := by
  rw [List.filter_eq_nil_iff]
  intro p hp
  unfold ID3Tag.pictures ID3Tag.get_frames_by_id ID3Tag.picturesOf at hp
  rw [remove_picture_type_frames] at hp
  obtain ⟨f, hf, hc⟩ := List.mem_filterMap.mp hp
  obtain ⟨hf1, hfid⟩ := List.mem_filter.mp hf
  obtain ⟨-, hfrem⟩ := List.mem_filter.mp hf1
  cases hcnt : f.contents <;> rw [hcnt] at hc <;> simp at hc
  rename_i pic
  subst hc
  simp [apicRemoves, hfid, hcnt] at hfrem
  simpa using hfrem

/-- `add_picture_enc` appends exactly one picture after removing the type
conflicts. -/
theorem pictures_add_picture_enc (t : ID3Tag) (mime desc : String)
    (pt : PictureType) (data : List Nat) (e : Encoding) :
    (t.add_picture_enc mime pt desc data e).pictures =
      (t.remove_picture_type pt).pictures ++
        [{ mime_type := mime, picture_type := pt, description := desc,
           data := data }] := by
  unfold ID3Tag.add_picture_enc
  dsimp only
  unfold ID3Tag.pictures ID3Tag.get_frames_by_id ID3Tag.picturesOf
  rw [add_frame_frames, List.filter_append, List.filterMap_append]
  congr 1

/-- C6: after `add_picture_enc` with picture type `pt`, the pictures of
type `pt` are exactly the newly added one; in particular (E4) adding a JPEG
then a PNG for the same type leaves a single picture whose mime type is
`"image/png"`. -/
theorem c6_apic_uniqueness (t : ID3Tag) (mime desc : String)
    (pt : PictureType) (data : List Nat) (e : Encoding) :
    ((t.add_picture_enc mime pt desc data e).pictures.filter
        (fun p => p.picture_type == pt) =
      [{ mime_type := mime, picture_type := pt, description := desc,
         data := data }]) ∧
    (((ID3Tag.new.add_picture "image/jpeg" picture_type.Other [0]).add_picture
        "image/png" picture_type.Other [0]).pictures.length = 1) ∧
    (((ID3Tag.new.add_picture "image/jpeg" picture_type.Other [0]).add_picture
        "image/png" picture_type.Other [0]).pictures.map Picture.mime_type =
      ["image/png"]) := by
  refine ⟨?_, by decide, by decide⟩
  rw [pictures_add_picture_enc, List.filter_append,
    pictures_remove_picture_type]
  simp

/-- C8 counterexample: the payload `"7/x/y"` has non-numeric components,
yet `track()` is `Some 7` rather than the `none` the claim demands:
pre-1.0 `splitn(2, '/')` yields the three pieces `["7", "x", "y"]`, the
length-2 test fails, and `track_pair` parses only the first piece. -/
theorem c8_track_parse_counterexample :
    trckMultiSlashTag.track = some 7 ∧
    trckMultiSlashTag.total_tracks = none ∧
    splitn 2 '/' "7/x/y" = ["7", "x", "y"] ∧
    from_str_u32 "x" = none ∧
    trckMultiSlashTag.track ≠ none := by
  refine ⟨?_, ?_, ?_, ?_, ?_⟩ <;> decide

/-- C8 as amended: `track()` / `total_tracks()` parse the first `TRCK`
text payload per `trackPairSpec` — split at at most two `/`; `"5/13"`
yields track 5 of 13 and `"7"` yields track 7 with no total; with exactly
two pieces a non-numeric component yields `none` for both (e.g. `"nope"`
as a one-piece non-number also yields `none`); with two or more `/` the
total is `none` and the track is the parse of the first piece alone
(`"7/x/y"` yields track 7). -/
theorem c8_track_parse_amended (t : ID3Tag) (f : Frame) (s : String)
    (h : t.get_frame_by_id "TRCK" = some f)
    (hc : f.contents = TextContent s) :
    (t.track_pair = trackPairSpec s ∧
     t.track = (trackPairSpec s).map Prod.fst ∧
     t.total_tracks = (trackPairSpec s).bind Prod.snd) ∧
    (trackPairSpec "5/13" = some (5, some 13) ∧
     trackPairSpec "7" = some (7, none) ∧
     trackPairSpec "nope" = none ∧
     trackPairSpec "7/x/y" = some (7, none)) := by
  have hpair : t.track_pair = trackPairSpec s := by
    unfold ID3Tag.track_pair trackPairSpec
    rw [h]
    dsimp only
    rw [hc]
    dsimp only
    by_cases hsp : (splitn 2 '/' s).length = 2
    · simp only [if_pos hsp]
      cases h1 : from_str_u32 ((splitn 2 '/' s).getD 1 "") <;>
        cases h0 : from_str_u32 ((splitn 2 '/' s).getD 0 "") <;> rfl
    · simp only [if_neg hsp]
  refine ⟨⟨hpair, ?_, ?_⟩, by decide, by decide, by decide, by decide⟩
  · unfold ID3Tag.track
    rw [hpair]
    cases trackPairSpec s <;> rfl
  · unfold ID3Tag.total_tracks
    rw [hpair]

/-- Witness for C8 (amended): the concrete payloads `"5/13"` (both parsed)
and `"7/x/y"` (track only). -/
theorem c8_track_parse_amended_witness :
    (trckTag.track = (trackPairSpec "5/13").map Prod.fst ∧
     trackPairSpec "5/13" = some (5, some 13)) ∧
    trckMultiSlashTag.track = (trackPairSpec "7/x/y").map Prod.fst :=
  ⟨⟨((c8_track_parse_amended trckTag trckFrame "5/13" (by decide) rfl).1).2.1,
    (c8_track_parse_amended trckTag trckFrame "5/13" (by decide) rfl).2.1⟩,
   ((c8_track_parse_amended trckMultiSlashTag trckMultiSlashFrame "7/x/y"
      (by decide) rfl).1).2.1⟩

theorem read_exact_none (bs : List Nat) (p n : Nat) (h : bs.length < p + n) :
    FsFile.read_exact ⟨bs, p⟩ n = none := by
  unfold FsFile.read_exact
  have hc : ¬ ((⟨bs, p⟩ : FsFile).pos + n ≤ (⟨bs, p⟩ : FsFile).bytes.length) := by
    dsimp only
    omega
  rw [if_neg hc]

theorem read_exact_some (bs : List Nat) (p n : Nat) (h : p + n ≤ bs.length) :
    FsFile.read_exact ⟨bs, p⟩ n = some ((bs.drop p).take n, ⟨bs, p + n⟩) := by
  unfold FsFile.read_exact
  have hc : ((⟨bs, p⟩ : FsFile).pos + n ≤ (⟨bs, p⟩ : FsFile).bytes.length) := by
    dsimp only
    omega
  rw [if_pos hc]

theorem read_be_u32_some (bs : List Nat) (p : Nat) (h : p + 4 ≤ bs.length) :
    FsFile.read_be_u32 ⟨bs, p⟩ =
      some (beU32 ((bs.drop p).take 4), ⟨bs, p + 4⟩) := by
  unfold FsFile.read_be_u32
  rw [read_exact_some bs p 4 h]
  rfl

theorem read_be_u32_none (bs : List Nat) (p : Nat) (h : bs.length < p + 4) :
    FsFile.read_be_u32 ⟨bs, p⟩ = none := by
  unfold FsFile.read_be_u32
  rw [read_exact_none bs p 4 h]
  rfl

/-- `skip_metadata` on a file shorter than the magic: the magic read fails
and the fallback returns the whole file. -/
theorem skip_metadata_short (bs : List Nat) (h : bs.length < 3) :
    skip_metadata (some bs) = bs := by
  unfold skip_metadata
  dsimp only
  rw [read_exact_none bs 0 3 (by omega)]
  rfl

/-- `skip_metadata` on a readable non-ID3 file: seek to 0 and read all. -/
theorem skip_metadata_nonid3 (bs : List Nat) (h3 : 3 ≤ bs.length)
    (hm : bs.take 3 ≠ id3Magic) : skip_metadata (some bs) = bs := by
  unfold skip_metadata
  dsimp only
  have hre := read_exact_some bs 0 3 (by omega)
  rw [List.drop_zero] at hre
  rw [hre]
  dsimp only
  rw [if_neg hm]
  rfl

/-- A file that starts with the magic holds at least the 3 magic bytes. -/
theorem length_ge_three_of_magic (bs : List Nat) (hm : bs.take 3 = id3Magic) :
    3 ≤ bs.length := by
  have := congrArg List.length hm
  simp only [List.length_take, id3Magic, List.length_cons, List.length_nil] at this
  omega

/-- `skip_metadata` on an ID3 file truncated before the size field: the
size read fails and the fallback returns the whole file. -/
theorem skip_metadata_id3_short (bs : List Nat) (hm : bs.take 3 = id3Magic)
    (h : bs.length < 10) : skip_metadata (some bs) = bs := by
  have h3 := length_ge_three_of_magic bs hm
  unfold skip_metadata
  dsimp only
  have hre := read_exact_some bs 0 3 (by omega)
  rw [List.drop_zero] at hre
  rw [hre]
  dsimp only
  rw [if_pos hm]
  dsimp only [FsFile.seek_cur]
  rw [read_be_u32_none bs (3 + 3) (by omega)]
  rfl

/-- `skip_metadata` on an ID3 file with a size field: the bytes from
`10 + unsynchsafe(size)` to the end. -/
theorem skip_metadata_id3 (bs : List Nat) (hm : bs.take 3 = id3Magic)
    (h10 : 10 ≤ bs.length) :
    skip_metadata (some bs) =
      bs.drop (10 + unsynchsafe (beU32 ((bs.drop 6).take 4))) := by
  unfold skip_metadata
  dsimp only
  have hre := read_exact_some bs 0 3 (by omega)
  rw [List.drop_zero] at hre
  rw [hre]
  dsimp only
  rw [if_pos hm]
  dsimp only [FsFile.seek_cur]
  rw [read_be_u32_some bs (3 + 3) (by omega)]
  rfl

/-- C4 counterexample: on the two-byte non-ID3 file `[65, 66]` the magic
read is an I/O error, yet `skip_metadata` returns the whole file — not the
empty byte sequence the claim demands. -/
theorem c4_skip_metadata_counterexample :
    (FsFile.read_exact ⟨[65, 66], 0⟩ 3 = none) ∧
    skip_metadata (some [65, 66]) = [65, 66] ∧
    skip_metadata (some [65, 66]) ≠ [] := by
  refine ⟨?_, ?_, ?_⟩ <;> decide

/-- C4 as amended: `skip_metadata` never fails, and a failed open yields
the empty sequence; but an I/O error after a successful open takes the
`try_io!` fallback, which returns the entire file contents (witnessed here
by the two error sites the byte-list model can reach: a magic read on a
file shorter than 3 bytes, and a size read on an ID3 file shorter than 10
bytes). -/
theorem c4_skip_metadata_amended (bs : List Nat) :
    skip_metadata none = [] ∧
    (bs.length < 3 → skip_metadata (some bs) = bs) ∧
    (bs.take 3 = id3Magic → bs.length < 10 → skip_metadata (some bs) = bs) :=
  ⟨rfl, skip_metadata_short bs, skip_metadata_id3_short bs⟩

/-- Witness for C4 (amended): a failed open, a 2-byte file, and a truncated
ID3 header. -/
theorem c4_skip_metadata_amended_witness :
    skip_metadata none = [] ∧
    skip_metadata (some [65, 66]) = [65, 66] ∧
    skip_metadata (some [73, 68, 51, 4, 0]) = [73, 68, 51, 4, 0] :=
  ⟨(c4_skip_metadata_amended []).1,
   (c4_skip_metadata_amended [65, 66]).2.1 (by decide),
   (c4_skip_metadata_amended [73, 68, 51, 4, 0]).2.2 (by decide) (by decide)⟩

/-- C5: for any file not starting with `"ID3"` (files shorter than three
bytes included), `is_candidate` is false and `skip_metadata` returns the
whole file; for a file starting with `"ID3"` that holds a size field,
`skip_metadata` returns exactly the bytes from `10 + unsynchsafe(size)` to
the end. -/
theorem c5_probe_semantics (bs : List Nat) :
    (bs.take 3 ≠ id3Magic →
      is_candidate (some bs) = false ∧ skip_metadata (some bs) = bs) ∧
    (bs.take 3 = id3Magic → 10 ≤ bs.length →
      skip_metadata (some bs) =
        bs.drop (10 + unsynchsafe (beU32 ((bs.drop 6).take 4)))) := by
  constructor
  · intro hm
    constructor
    · by_cases h3 : 3 ≤ bs.length
      · unfold is_candidate
        dsimp only
        have hre := read_exact_some bs 0 3 (by omega)
        rw [List.drop_zero] at hre
        rw [hre]
        simpa using hm
      · unfold is_candidate
        dsimp only
        rw [read_exact_none bs 0 3 (by omega)]
    · by_cases h3 : 3 ≤ bs.length
      · exact skip_metadata_nonid3 bs h3 hm
      · exact skip_metadata_short bs (by omega)
  · exact skip_metadata_id3 bs

/-- Witness for C5: a non-ID3 file and the minimal empty ID3 file. -/
theorem c5_probe_semantics_witness :
    (is_candidate (some [0, 1, 2]) = false ∧
      skip_metadata (some [0, 1, 2]) = [0, 1, 2]) ∧
    skip_metadata (some emptyId3File) = [] :=
  ⟨(c5_probe_semantics [0, 1, 2]).1 (by decide),
   ((c5_probe_semantics emptyId3File).2 (by decide) (by decide)).trans
     (by decide)⟩

end id3
